import Mathlib

/-!
Verification of the Frontline substitute-job scraper's job lifecycle engine.

The definitions below are a shallow embedding of the repository's JavaScript
source:
* the classifier (`filters.mjs`: `isSchoolLevelAccepted`, `isSchoolBlacklisted`,
  `isSchoolNearby`, `isSubjectAccepted`, `isDurationAccepted`, `filterJob`),
* the fingerprint (`utils.mjs`: `createJobHash`, backed by MD5),
* the lifecycle store and its operations from the daemon
  (`loadNotifiedJobs` migration, `processCallbacks`, `executePendingBookings`,
  `expireOldNotifications`, `recoverStuckBookings`, and the dispatch step of
  `performScrapeFilterNotify`).

JavaScript strings are modelled by `String`, numbers by `Nat`/`Int`, `null` /
`undefined` by `Option`, and the JS object used as the store by an association
list keyed by the fingerprint string.  `String.includes` is modelled by
substring (contiguous infix) search on the character list, and
`String.prototype.toLowerCase` by ASCII lowercasing, which agrees with JS on
the ASCII configuration strings the filters use.
-/

namespace Scraper

/-- Does the first character list start the second one? -/
def charsStartWith : List Char → List Char → Bool
  | [], _ => true
  | _ :: _, [] => false
  | p :: ps, c :: cs => p = c && charsStartWith ps cs

/-- Does the first character list occur contiguously inside the second one? -/
def charsOccurIn : List Char → List Char → Bool
  | pat, [] => charsStartWith pat []
  | pat, c :: cs => charsStartWith pat (c :: cs) || charsOccurIn pat cs

/-- JS `s.includes(pat)`: `pat` occurs as a contiguous substring of `s`. -/
def strIncludes (s pat : String) : Bool :=
  charsOccurIn pat.toList s.toList

/-- JS `s.toLowerCase()` (ASCII range, which covers every pattern list). -/
def jsToLower (s : String) : String :=
  String.mk (s.data.map Char.toLower)

-- ===========================================================================
-- filters.mjs — rule configuration (copied verbatim from the source arrays)
-- ===========================================================================

/-- School levels we want to accept. -/
def ACCEPTED_SCHOOL_LEVELS : List String :=
  ["high school", "hs", "jr. high", "jr high", "junior high", "middle school",
   "intermediate"]

/-- School levels we want to reject. -/
def REJECTED_SCHOOL_LEVELS : List String :=
  ["elementary", "elem", "primary", "kindergarten", "pre-k", "preschool",
   "pre school"]

/-- Specific schools to reject (blacklist). -/
def BLACKLISTED_SCHOOLS : List String :=
  ["westlake high school", "westlake hs", "saratoga springs",
   "vista heights middle school", "vista heights"]

/-- Schools considered "nearby" to Orem, UT. -/
def NEARBY_SCHOOLS : List String :=
  ["orem", "lindon", "pleasant grove", "vineyard", "american fork",
   "cedar hills", "highland", "alpine", "lehi",
   "mountain view", "timpanogos", "canyon view", "lone peak", "skyridge",
   "timberline"]

/-- Subjects we want to accept. -/
def ACCEPTED_SUBJECTS : List String :=
  ["history", "government", "geography", "econ", "sociology", "psychology",
   "social studies", "political science", "civics", "humanities",
   "english", "language arts", "ela", "literature", "writing", "composition",
   "reading",
   "band", "orchestra", "music",
   "math", "algebra", "geometry", "calculus", "statistics",
   "science", "biology", "chemistry", "physics", "anatomy", "physiology",
   "cte", "career and technical", "career tech",
   "art", "visual arts", "drawing", "painting", "ceramics", "drama",
   "theater", "theatre", "performing arts"]

/-- Subjects we want to reject. -/
def REJECTED_SUBJECTS : List String :=
  ["spanish", "french", "german", "chinese", "japanese", "sign language",
   "english language learner",
   "computer science", "coding", "programming",
   "choir", "chorus", "choral",
   "physical education", "gym", "drivers ed", "driver education",
   "special education", "special ed", "sped"]

/-- Duration patterns we want to accept (Full Day only). -/
def ACCEPTED_DURATIONS : List String :=
  ["full day", "full-day", "fullday"]

/-- Duration patterns we want to reject. -/
def REJECTED_DURATIONS : List String :=
  ["half day", "half-day", "halfday", "half day am", "half day pm", "partial"]

-- ===========================================================================
-- filters.mjs — filtering functions
-- ===========================================================================

/-- `isSchoolLevelAccepted(schoolName)`: rejected patterns win, then accepted
patterns, then the default is `false`. -/
def isSchoolLevelAccepted (schoolName : String) : Bool :=
  let lowerSchool := jsToLower schoolName
  if REJECTED_SCHOOL_LEVELS.any (fun rejected => strIncludes lowerSchool rejected) then
    false
  else if ACCEPTED_SCHOOL_LEVELS.any (fun accepted => strIncludes lowerSchool accepted) then
    true
  else
    false

/-- `isSchoolBlacklisted(schoolName)`. -/
def isSchoolBlacklisted (schoolName : String) : Bool :=
  let lowerSchool := jsToLower schoolName
  BLACKLISTED_SCHOOLS.any (fun rejected => strIncludes lowerSchool rejected)

/-- `isSchoolNearby(schoolName)`. -/
def isSchoolNearby (schoolName : String) : Bool :=
  let lowerSchool := jsToLower schoolName
  NEARBY_SCHOOLS.any (fun nearby => strIncludes lowerSchool nearby)

/-- The three-valued result of `isSubjectAccepted`. -/
inductive SubjectResult where
  | ACCEPT
  | REJECT
  | UNCERTAIN
deriving DecidableEq, BEq

/-- `isSubjectAccepted(position)`: the rejected list is checked first, then
the accepted list, and no match on either list yields `UNCERTAIN`. -/
def isSubjectAccepted (position : String) : SubjectResult :=
  let lowerPosition := jsToLower position
  if REJECTED_SUBJECTS.any (fun rejected => strIncludes lowerPosition rejected) then
    SubjectResult.REJECT
  else if ACCEPTED_SUBJECTS.any (fun accepted => strIncludes lowerPosition accepted) then
    SubjectResult.ACCEPT
  else
    SubjectResult.UNCERTAIN

/-- `isDurationAccepted(duration)`: rejected patterns win, then accepted
patterns, and no match defaults to `false`. -/
def isDurationAccepted (duration : String) : Bool :=
  let lowerDuration := jsToLower duration
  if REJECTED_DURATIONS.any (fun rejected => strIncludes lowerDuration rejected) then
    false
  else if ACCEPTED_DURATIONS.any (fun accepted => strIncludes lowerDuration accepted) then
    true
  else
    false

-- ===========================================================================
-- The Job value object (shape produced by `scrapeJobs` in the daemon)
-- ===========================================================================

/-- One per-day sub-record of a multi-day job. -/
structure Day where
  date : String
  startTime : String
  endTime : String
  duration : String
  location : String
deriving DecidableEq

/-- A scraped job.  Every text field is a `String` because `scrapeJobs`
replaces a missing DOM field by the sentinel string "N/A". -/
structure Job where
  teacher : String
  position : String
  reportTo : String
  jobNumber : String
  date : String
  startTime : String
  endTime : String
  duration : String
  school : String
  isMultiDay : Bool
  days : List Day
deriving DecidableEq

/-- The result object of `filterJob`; the JS field `match` is spelled
`isMatch` because `match` is a Lean keyword. -/
structure FilterResult where
  isMatch : Bool
  reason : String
  uncertain : Bool
deriving DecidableEq

/-- `filterJob(job)` from filters.mjs, translated branch for branch. -/
def filterJob (job : Job) : FilterResult :=
  let blacklisted := isSchoolBlacklisted job.school
  let schoolLevelOk := isSchoolLevelAccepted job.school
  let fullDay := isDurationAccepted job.duration
  let subjectResult := isSubjectAccepted job.position
  let nearby := isSchoolNearby job.school
  if subjectResult = SubjectResult.REJECT then
    { isMatch := false, reason := "Subject rejected: " ++ job.position,
      uncertain := false }
  else if !schoolLevelOk && !blacklisted then
    { isMatch := false, reason := "School level not accepted: " ++ job.school,
      uncertain := false }
  else if blacklisted then
    if fullDay ∧ (subjectResult = SubjectResult.ACCEPT
        ∨ subjectResult = SubjectResult.UNCERTAIN) then
      { isMatch := true,
        reason := "Blacklisted school (uncertain): " ++ job.school ++ " - "
          ++ job.position,
        uncertain := true }
    else
      { isMatch := false, reason := "Blacklisted school: " ++ job.school,
        uncertain := false }
  else if fullDay then
    if subjectResult = SubjectResult.ACCEPT then
      { isMatch := true,
        reason := "All criteria met: " ++ job.school ++ " - " ++ job.position
          ++ " - " ++ job.duration,
        uncertain := false }
    else
      { isMatch := true,
        reason := "Uncertain subject match: " ++ job.position ++ " at "
          ++ job.school,
        uncertain := true }
  else if nearby ∧ subjectResult = SubjectResult.ACCEPT then
    { isMatch := true,
      reason := "Half day nearby (uncertain): " ++ job.school ++ " - "
        ++ job.position ++ " - " ++ job.duration,
      uncertain := true }
  else
    { isMatch := false,
      reason := "Half day "
        ++ (if nearby then "uncertain subject" else "not nearby") ++ ": "
        ++ job.school ++ " - " ++ job.duration,
      uncertain := false }

-- ===========================================================================
-- Concrete jobs used by the witnesses
-- ===========================================================================

/-- A full-day history job at an accepted-level, non-blacklisted, nearby
school. -/
def demoJobFullDay : Job :=
  { teacher := "N/A", position := "US History", reportTo := "N/A",
    jobNumber := "1001", date := "Wed, 2/25/2026", startTime := "7:45 AM",
    endTime := "3:05 PM", duration := "Full Day",
    school := "Timpanogos High School", isMultiDay := false, days := [] }

/-- The same job at a blacklisted school. -/
def demoJobBlacklisted : Job :=
  { demoJobFullDay with school := "Westlake High School" }

/-- The same job as a half-day posting at a nearby school. -/
def demoJobHalfDay : Job :=
  { demoJobFullDay with duration := "Half Day" }

/-- The half-day job at an accepted-level school that is not nearby. -/
def demoJobHalfDayFar : Job :=
  { demoJobHalfDay with school := "Provo High School" }

-- ===========================================================================
-- C1: blacklisted schools
-- ===========================================================================

/-- C1.  For every job whose school is on the blacklist, `filterJob` returns
a match with `uncertain = true` exactly when the duration is full-day and the
subject axis is ACCEPT or UNCERTAIN, and rejects otherwise. -/
theorem filterJob_blacklisted (job : Job)
    (hb : isSchoolBlacklisted job.school = true) :
    (((filterJob job).isMatch = true ∧ (filterJob job).uncertain = true) ↔
      (isDurationAccepted job.duration = true ∧
        (isSubjectAccepted job.position = SubjectResult.ACCEPT ∨
         isSubjectAccepted job.position = SubjectResult.UNCERTAIN)))
    ∧ (¬ (isDurationAccepted job.duration = true ∧
        (isSubjectAccepted job.position = SubjectResult.ACCEPT ∨
         isSubjectAccepted job.position = SubjectResult.UNCERTAIN)) →
       (filterJob job).isMatch = false) := by
  cases hsub : isSubjectAccepted job.position <;>
    cases hfd : isDurationAccepted job.duration <;>
      simp [filterJob, hb, hsub, hfd]

/-- C1 witness: a full-day, accept-listed-subject job at a blacklisted school
is a MATCH with `uncertain = true`, not a REJECT. -/
theorem filterJob_blacklisted_witness :
    isSchoolBlacklisted demoJobBlacklisted.school = true ∧
    (filterJob demoJobBlacklisted).isMatch = true ∧
    (filterJob demoJobBlacklisted).uncertain = true :=
  ⟨by decide,
   ((filterJob_blacklisted demoJobBlacklisted (by decide)).1.mpr (by decide)).1,
   ((filterJob_blacklisted demoJobBlacklisted (by decide)).1.mpr (by decide)).2⟩

-- ===========================================================================
-- C4: half-day jobs at accepted-level, non-blacklisted schools
-- ===========================================================================

/-- C4.  For every half-day job at an accepted-level, non-blacklisted school,
`filterJob` returns MATCH with `uncertain = true` iff the school is on the
nearby list and the subject axis is ACCEPT; otherwise it rejects. -/
theorem filterJob_halfday (job : Job)
    (hlevel : isSchoolLevelAccepted job.school = true)
    (hbl : isSchoolBlacklisted job.school = false)
    (hfd : isDurationAccepted job.duration = false) :
    (((filterJob job).isMatch = true ∧ (filterJob job).uncertain = true) ↔
      (isSchoolNearby job.school = true ∧
       isSubjectAccepted job.position = SubjectResult.ACCEPT))
    ∧ (¬ (isSchoolNearby job.school = true ∧
          isSubjectAccepted job.position = SubjectResult.ACCEPT) →
       (filterJob job).isMatch = false) := by
  cases hsub : isSubjectAccepted job.position <;>
    cases hnb : isSchoolNearby job.school <;>
      simp [filterJob, hlevel, hbl, hfd, hsub, hnb]

/-- C4 witness: the half-day history job at nearby Timpanogos is a MATCH with
`uncertain = true`, while the same job at non-nearby Provo is rejected. -/
theorem filterJob_halfday_witness :
    (isSchoolLevelAccepted demoJobHalfDay.school = true ∧
     isSchoolBlacklisted demoJobHalfDay.school = false ∧
     isDurationAccepted demoJobHalfDay.duration = false ∧
     (filterJob demoJobHalfDay).isMatch = true ∧
     (filterJob demoJobHalfDay).uncertain = true) ∧
    (filterJob demoJobHalfDayFar).isMatch = false :=
  ⟨⟨by decide, by decide, by decide,
    ((filterJob_halfday demoJobHalfDay (by decide) (by decide)
        (by decide)).1.mpr (by decide)).1,
    ((filterJob_halfday demoJobHalfDay (by decide) (by decide)
        (by decide)).1.mpr (by decide)).2⟩,
   (filterJob_halfday demoJobHalfDayFar (by decide) (by decide)
      (by decide)).2 (by decide)⟩

-- ===========================================================================
-- C8: filterJob never throws on jobs produced by the scraper
-- ===========================================================================

/-- A job as a raw JavaScript object: each text field may be `undefined`
(`none`).  `filterJob` calls `.toLowerCase()` on `school`, `duration` and
`position`, which would throw a `TypeError` on `undefined`. -/
structure JsJob where
  teacher : Option String
  position : Option String
  reportTo : Option String
  jobNumber : Option String
  date : Option String
  startTime : Option String
  endTime : Option String
  duration : Option String
  school : Option String
  isMultiDay : Bool
  days : List Day
deriving DecidableEq

/-- JS template-literal interpolation of a possibly-undefined value: the
string "undefined" is spliced in rather than throwing. -/
def jsField (v : Option String) : String :=
  v.getD "undefined"

/-- `filterJob` under raw JavaScript semantics: the fields whose methods are
invoked (`school`, `duration`, `position` — each hits `.toLowerCase()`)
must be defined or the call throws, modelled as `Except.error`. -/
def filterJobJs (jj : JsJob) : Except String FilterResult :=
  match jj.school, jj.duration, jj.position with
  | some school, some duration, some position =>
    Except.ok (filterJob
      { teacher := jsField jj.teacher, position := position,
        reportTo := jsField jj.reportTo, jobNumber := jsField jj.jobNumber,
        date := jsField jj.date, startTime := jsField jj.startTime,
        endTime := jsField jj.endTime, duration := duration,
        school := school, isMultiDay := jj.isMultiDay, days := jj.days })
  | none, _, _ => Except.error "TypeError: job.school is undefined"
  | _, none, _ => Except.error "TypeError: job.duration is undefined"
  | _, _, none => Except.error "TypeError: job.position is undefined"

/-- View a scraped `Job` as the JavaScript object handed to `filterJob`. -/
def jobToJs (j : Job) : JsJob :=
  { teacher := some j.teacher, position := some j.position,
    reportTo := some j.reportTo, jobNumber := some j.jobNumber,
    date := some j.date, startTime := some j.startTime,
    endTime := some j.endTime, duration := some j.duration,
    school := some j.school, isMultiDay := j.isMultiDay, days := j.days }

/-- A scraped text field: `textContent().catch(() => 'N/A')` followed by
`.trim()` in `scrapeJobs` — a missing DOM field degrades to the sentinel
"N/A", so the resulting field is always a string. -/
def scrapeField (v : Option String) : String :=
  (v.getD "N/A").trim

/-- Assemble a `Job` the way `scrapeJobs` does, from possibly-missing DOM
text fields. -/
def buildJob (teacher position reportTo jobNumber date startTime endTime
    duration school : Option String) (isMultiDay : Bool) (days : List Day) :
    Job :=
  { teacher := scrapeField teacher, position := scrapeField position,
    reportTo := scrapeField reportTo, jobNumber := scrapeField jobNumber,
    date := scrapeField date, startTime := scrapeField startTime,
    endTime := scrapeField endTime, duration := scrapeField duration,
    school := scrapeField school, isMultiDay := isMultiDay, days := days }

/-- C8.  For every job assembled by the scraper — including jobs whose DOM
text fields were missing and degraded to the "N/A" sentinel — `filterJob`
never throws and always returns the `{match, reason, uncertain}` result
object computed by the pure classifier. -/
theorem filterJob_never_throws :
    (∀ j : Job, filterJobJs (jobToJs j) = Except.ok (filterJob j)) ∧
    (∀ (teacher position reportTo jobNumber date startTime endTime duration
        school : Option String) (isMultiDay : Bool) (days : List Day),
      ∃ r : FilterResult,
        filterJobJs (jobToJs (buildJob teacher position reportTo jobNumber
          date startTime endTime duration school isMultiDay days)) =
          Except.ok r) :=
  ⟨fun _ => rfl, fun t p r n d st et du sc m ds =>
    ⟨filterJob (buildJob t p r n d st et du sc m ds), rfl⟩⟩

-- ===========================================================================
-- utils.mjs — createJobHash (Node's crypto MD5, hex digest)
-- ===========================================================================

/-- 2 to the 32nd, the modulus of 32-bit machine arithmetic. -/
def UINT32_MOD : Nat := 4294967296

/-- The all-ones 32-bit mask, used to model bitwise complement. -/
def mask32 : Nat := 4294967295

/-- Rotate a 32-bit word left by `s` bits. -/
def rotl32 (x s : Nat) : Nat :=
  (x * 2 ^ s) % UINT32_MOD + x / 2 ^ (32 - s)

/-- The MD5 sine-derived constant table (RFC 1321). -/
def md5K : List Nat :=
  [0xd76aa478, 0xe8c7b756, 0x242070db, 0xc1bdceee,
   0xf57c0faf, 0x4787c62a, 0xa8304613, 0xfd469501,
   0x698098d8, 0x8b44f7af, 0xffff5bb1, 0x895cd7be,
   0x6b901122, 0xfd987193, 0xa679438e, 0x49b40821,
   0xf61e2562, 0xc040b340, 0x265e5a51, 0xe9b6c7aa,
   0xd62f105d, 0x02441453, 0xd8a1e681, 0xe7d3fbc8,
   0x21e1cde6, 0xc33707d6, 0xf4d50d87, 0x455a14ed,
   0xa9e3e905, 0xfcefa3f8, 0x676f02d9, 0x8d2a4c8a,
   0xfffa3942, 0x8771f681, 0x6d9d6122, 0xfde5380c,
   0xa4beea44, 0x4bdecfa9, 0xf6bb4b60, 0xbebfbc70,
   0x289b7ec6, 0xeaa127fa, 0xd4ef3085, 0x04881d05,
   0xd9d4d039, 0xe6db99e5, 0x1fa27cf8, 0xc4ac5665,
   0xf4292244, 0x432aff97, 0xab9423a7, 0xfc93a039,
   0x655b59c3, 0x8f0ccc92, 0xffeff47d, 0x85845dd1,
   0x6fa87e4f, 0xfe2ce6e0, 0xa3014314, 0x4e0811a1,
   0xf7537e82, 0xbd3af235, 0x2ad7d2bb, 0xeb86d391]

/-- The MD5 per-round rotation amounts (RFC 1321). -/
def md5S : List Nat :=
  [7, 12, 17, 22, 7, 12, 17, 22, 7, 12, 17, 22, 7, 12, 17, 22,
   5, 9, 14, 20, 5, 9, 14, 20, 5, 9, 14, 20, 5, 9, 14, 20,
   4, 11, 16, 23, 4, 11, 16, 23, 4, 11, 16, 23, 4, 11, 16, 23,
   6, 10, 15, 21, 6, 10, 15, 21, 6, 10, 15, 21, 6, 10, 15, 21]

/-- One MD5 round applied to the running state `(a, b, c, d)`. -/
def md5Step (M : List Nat) (st : Nat × Nat × Nat × Nat) (i : Nat) :
    Nat × Nat × Nat × Nat :=
  let (a, b, c, d) := st
  let f :=
    if i < 16 then (b &&& c) ||| ((b ^^^ mask32) &&& d)
    else if i < 32 then (d &&& b) ||| ((d ^^^ mask32) &&& c)
    else if i < 48 then b ^^^ c ^^^ d
    else c ^^^ (b ||| (d ^^^ mask32))
  let g :=
    if i < 16 then i
    else if i < 32 then (5 * i + 1) % 16
    else if i < 48 then (3 * i + 5) % 16
    else (7 * i) % 16
  let tmp := (a + f + md5K.getD i 0 + M.getD g 0) % UINT32_MOD
  (d, (b + rotl32 tmp (md5S.getD i 0)) % UINT32_MOD, b, c)

/-- Process one 16-word block, adding the round output back into the state. -/
def md5Block (st : Nat × Nat × Nat × Nat) (M : List Nat) :
    Nat × Nat × Nat × Nat :=
  let r := (List.range 64).foldl (md5Step M) st
  ((st.1 + r.1) % UINT32_MOD, (st.2.1 + r.2.1) % UINT32_MOD,
   (st.2.2.1 + r.2.2.1) % UINT32_MOD, (st.2.2.2 + r.2.2.2) % UINT32_MOD)

/-- Assemble a little-endian 32-bit word from up to four bytes. -/
def leWord (bs : List Nat) : Nat :=
  bs.foldr (fun b acc => b + 256 * acc) 0

/-- The sixteen little-endian words of a 64-byte block. -/
def blockWords (block : List Nat) : List Nat :=
  (List.range 16).map (fun i => leWord ((block.drop (4 * i)).take 4))

/-- The `k` low-order bytes of `n`, little-endian. -/
def leBytes (n : Nat) : Nat → List Nat
  | 0 => []
  | k + 1 => n % 256 :: leBytes (n / 256) k

/-- MD5 padding: a 0x80 byte, zeros to 56 mod 64, then the 64-bit
little-endian bit length. -/
def md5Pad (msg : List Nat) : List Nat :=
  let L := msg.length
  let zeros := (119 - L % 64) % 64
  msg ++ [128] ++ List.replicate zeros 0 ++ leBytes (L * 8 % 2 ^ 64) 8

/-- Cut a byte list into 64-byte blocks. -/
def chunks64 (l : List Nat) : List (List Nat) :=
  if h : l = [] then []
  else l.take 64 :: chunks64 (l.drop 64)
termination_by l.length
decreasing_by
  simp only [List.length_drop]
  exact Nat.sub_lt (List.length_pos.mpr h) (by decide)

/-- The MD5 state after digesting a byte sequence. -/
def md5Bytes (msg : List Nat) : Nat × Nat × Nat × Nat :=
  (chunks64 (md5Pad msg)).foldl (fun st block => md5Block st (blockWords block))
    (0x67452301, 0xefcdab89, 0x98badcfe, 0x10325476)

/-- A lowercase hexadecimal digit. -/
def hexDigitChar (n : Nat) : Char :=
  if n < 10 then Char.ofNat (48 + n) else Char.ofNat (87 + n)

/-- Two lowercase hex characters for one byte. -/
def byteToHex (b : Nat) : List Char :=
  [hexDigitChar (b / 16), hexDigitChar (b % 16)]

/-- Node's `crypto.createHash('md5').update(s).digest('hex')`: the MD5 digest
of the UTF-8 bytes of `s`, rendered as 32 lowercase hex characters. -/
def md5Hex (s : String) : String :=
  let bytes := s.toUTF8.toList.map (fun b => b.toNat)
  let r := md5Bytes bytes
  String.mk
    (((leBytes r.1 4 ++ leBytes r.2.1 4 ++ leBytes r.2.2.1 4 ++
       leBytes r.2.2.2 4).map byteToHex).flatten)

/-- `createJobHash(job)` from utils.mjs: the MD5 hex digest of the
lowercased string `date ++ "-" ++ school ++ "-" ++ position`. -/
def createJobHash (job : Job) : String :=
  md5Hex (jsToLower (job.date ++ "-" ++ job.school ++ "-" ++ job.position))

/-- ASCII lowercasing distributes over string concatenation. -/
theorem jsToLower_append (a b : String) :
    jsToLower (a ++ b) = jsToLower a ++ jsToLower b := by
  apply String.ext
  simp [jsToLower, String.data_append]

-- ===========================================================================
-- C9: the fingerprint depends only on the case-normalized identity tuple
-- ===========================================================================

/-- C9.  `createJobHash` is a deterministic function of the case-normalized
(date, school, position) tuple: two jobs that agree on those three fields up
to letter case get the same fingerprint, whatever every other field is. -/
theorem createJobHash_tuple (j1 j2 : Job)
    (hd : jsToLower j1.date = jsToLower j2.date)
    (hs : jsToLower j1.school = jsToLower j2.school)
    (hp : jsToLower j1.position = jsToLower j2.position) :
    createJobHash j1 = createJobHash j2 := by
  have e : ∀ d s p : String,
      jsToLower (d ++ "-" ++ s ++ "-" ++ p) =
        jsToLower d ++ jsToLower "-" ++ jsToLower s ++ jsToLower "-"
          ++ jsToLower p := by
    intro d s p
    rw [jsToLower_append, jsToLower_append, jsToLower_append, jsToLower_append]
  unfold createJobHash
  rw [e, e, hd, hs, hp]

/-- A job with the same identity tuple as `demoJobFullDay` up to letter case
but different in every other field. -/
def demoJobCased : Job :=
  { teacher := "Someone Else", position := "US HISTORY", reportTo := "Office",
    jobNumber := "2002", date := "WED, 2/25/2026", startTime := "8:00 AM",
    endTime := "2:00 PM", duration := "Half Day",
    school := "timpanogos high school", isMultiDay := true, days := [] }

/-- C9 witness: `demoJobFullDay` and `demoJobCased` agree on the tuple up to
case and collide on the fingerprint. -/
theorem createJobHash_tuple_witness :
    (jsToLower demoJobFullDay.date = jsToLower demoJobCased.date ∧
     jsToLower demoJobFullDay.school = jsToLower demoJobCased.school ∧
     jsToLower demoJobFullDay.position = jsToLower demoJobCased.position) ∧
    createJobHash demoJobFullDay = createJobHash demoJobCased :=
  ⟨⟨by decide, by decide, by decide⟩,
   createJobHash_tuple demoJobFullDay demoJobCased
     (by decide) (by decide) (by decide)⟩

-- ===========================================================================
-- The Lifecycle Store (data/notified-jobs.json) and its entries
-- ===========================================================================

/-- The `status` field of a `NotificationEntry`. -/
inductive Status where
  | notified
  | book_requested
  | booking
  | booked
  | failed
  | ignored
  | expired
deriving DecidableEq

/-- The string the JS code stores in `entry.status` (used in the
"Already ..." callback acknowledgement texts). -/
def statusStr : Status → String
  | Status.notified => "notified"
  | Status.book_requested => "book_requested"
  | Status.booking => "booking"
  | Status.booked => "booked"
  | Status.failed => "failed"
  | Status.ignored => "ignored"
  | Status.expired => "expired"

/-- One persisted `NotificationEntry`.  `autoBooked` is only set on the
auto-book path in JS (absent elsewhere, hence falsy), so it defaults to
`false`. -/
structure Entry where
  status : Status
  timestamp : Nat
  expiresAt : Option Nat
  telegramMessageId : Option Nat
  jobData : Option Job
  uncertain : Bool
  autoBooked : Bool := false
deriving DecidableEq

/-- The in-memory `notifiedJobs` object: fingerprint-keyed entries in
insertion order (JS object iteration order for string keys). -/
abbrev Store := List (String × Entry)

/-- `notifiedJobs[hash]`: first value stored under the key, if any. -/
def lookupStore : Store → String → Option Entry
  | [], _ => none
  | p :: rest, h => if p.1 = h then some p.2 else lookupStore rest h

/-- In-place mutation of the entry object stored under a key (JS
`entry.status = ...` mutates the object the store points to). -/
def mapEntries (f : String → Entry → Entry) : Store → Store
  | [] => []
  | p :: rest => (p.1, f p.1 p.2) :: mapEntries f rest

/-- Replace the value stored under key `h` by `e`. -/
def updateStore (s : Store) (h : String) (e : Entry) : Store :=
  mapEntries (fun key old => if key = h then e else old) s

/-- How many pairs of the store carry the key. -/
def countKey : Store → String → Nat
  | [], _ => 0
  | p :: rest, h => (if p.1 = h then 1 else 0) + countKey rest h

-- ===========================================================================
-- loadNotifiedJobs — migration, and recoverStuckBookings
-- ===========================================================================

/-- One value of the persisted JSON document: either a legacy bare
timestamp or a full entry object. -/
inductive StoredValue where
  | legacy (timestamp : Nat)
  | entry (e : Entry)
deriving DecidableEq

/-- The raw persisted document, fingerprint-keyed. -/
abbrev RawStore := List (String × StoredValue)

/-- The migration `loadNotifiedJobs` applies: a bare-number value becomes an
already-`expired` entry with that timestamp. -/
def migrateValue : StoredValue → Entry
  | StoredValue.legacy t =>
    { status := Status.expired, timestamp := t, expiresAt := some t,
      telegramMessageId := none, jobData := none, uncertain := false,
      autoBooked := false }
  | StoredValue.entry e => e

/-- `loadNotifiedJobs()`: parse the persisted document and migrate
old-format values. -/
def loadNotifiedJobs (raw : RawStore) : Store :=
  raw.map (fun p => (p.1, migrateValue p.2))

/-- `recoverStuckBookings(notifiedJobs)`: any entry in `booking` is marked
`failed`; nothing else changes. -/
def recoverStuckBookings (s : Store) : Store :=
  mapEntries (fun _ e =>
    if e.status = Status.booking then { e with status := Status.failed }
    else e) s

/-- The store after the startup sequence of `main()` (load, recover, save),
which runs before the first scrape cycle. -/
def startupRecoveredStore (raw : RawStore) : Store :=
  recoverStuckBookings (loadNotifiedJobs raw)

-- ===========================================================================
-- processCallbacks — Telegram button presses
-- ===========================================================================

/-- A Telegram `callback_query`: its id and its `data` payload (which may be
absent in the API object). -/
structure CallbackQuery where
  id : String
  data : Option String
deriving DecidableEq

/-- An `answerCallback(queryId, text)` invocation recorded as an event. -/
abbrev Ack := String × String

/-- JS `s.split(sep)` for a one-character separator, on character lists. -/
def splitChar (sep : Char) : List Char → List (List Char)
  | [] => [[]]
  | x :: xs =>
    match splitChar sep xs with
    | [] => [[]]
    | y :: ys => if x = sep then [] :: y :: ys else (x :: y) :: ys

/-- JS `data.split(':')`. -/
def jsSplitColon (data : String) : List String :=
  (splitChar ':' data.toList).map String.mk

/-- `data.split(':')[0]` — the action tag. -/
def callbackAction (data : String) : String :=
  (jsSplitColon data).headD ""

/-- `data.split(':')[1]` — the fingerprint, with JS `undefined` collapsed to
the empty string (both are falsy in the `!jobHash` guard). -/
def callbackHash (data : String) : String :=
  ((jsSplitColon data).get? 1).getD ""

/-- The body of the `processCallbacks` loop for one drained query. -/
def processOneCallback (store : Store) (q : CallbackQuery) :
    Store × List Ack :=
  if callbackHash (q.data.getD "") = "" then
    (store, [(q.id, "Job not found or expired")])
  else
    match lookupStore store (callbackHash (q.data.getD "")) with
    | none => (store, [(q.id, "Job not found or expired")])
    | some entry =>
      if callbackAction (q.data.getD "") = "book" then
        if entry.status ≠ Status.notified then
          (store, [(q.id, "Already " ++ statusStr entry.status)])
        else
          (updateStore store (callbackHash (q.data.getD ""))
            { entry with status := Status.book_requested },
           [(q.id, "Booking...")])
      else if callbackAction (q.data.getD "") = "ignore" then
        if entry.status ≠ Status.notified then
          (store, [(q.id, "Already " ++ statusStr entry.status)])
        else
          (updateStore store (callbackHash (q.data.getD ""))
            { entry with status := Status.ignored },
           [(q.id, "Ignored")])
      else
        (store, [])

/-- `processCallbacks(notifiedJobs)`: drain the polled queries in order,
mutating the store and answering callbacks. -/
def processCallbacks : Store → List CallbackQuery → Store × List Ack
  | s, [] => (s, [])
  | s, q :: rest =>
    let r := processOneCallback s q
    let rest' := processCallbacks r.1 rest
    (rest'.1, r.2 ++ rest'.2)

-- ===========================================================================
-- pollCallbackQueries — the Telegram update cursor
-- ===========================================================================

/-- One Telegram update as returned by `getUpdates`. -/
structure TgUpdate where
  update_id : Nat
  callback_query : Option CallbackQuery
deriving DecidableEq

/-- The callback queries extracted from a non-empty batch of updates. -/
def pollQueries (updates : List TgUpdate) : List CallbackQuery :=
  updates.filterMap (fun u => u.callback_query)

/-- The `newOffset` computed by `pollCallbackQueries`: the last update's id
plus one when the batch is non-empty, otherwise the old offset. -/
def pollNewOffset (offset : Nat) (updates : List TgUpdate) : Nat :=
  match updates.getLast? with
  | none => offset
  | some u => u.update_id + 1

-- ===========================================================================
-- executePendingBookings — the Booking Executor
-- ===========================================================================

/-- The outcome of one `bookJobOnPage` attempt: the tri-state result object,
or a thrown exception caught by the executor. -/
inductive BookOutcome where
  | booked
  | taken
  | error
  | thrown
deriving DecidableEq

/-- The status update the executor applies once the attempt returns:
`success` yields `booked`; a failure result or a thrown exception yields
`failed`. -/
def applyBookOutcome (o : BookOutcome) (e : Entry) : Entry :=
  match o with
  | BookOutcome.booked => { e with status := Status.booked }
  | BookOutcome.taken => { e with status := Status.failed }
  | BookOutcome.error => { e with status := Status.failed }
  | BookOutcome.thrown => { e with status := Status.failed }

/-- External events of the booking phase of one cycle: an invocation of the
Booking Actuator (`bookJobOnPage`) for the entry under a key, or a
`saveNotifiedJobs` persisting a snapshot of the store. -/
inductive PhaseEvent where
  | extCall (hash : String)
  | persist (s : Store)

/-- `executePendingBookings(page, notifiedJobs)` with its external calls
recorded: every `book_requested` entry is marked `booking` in memory, the
Booking Actuator is invoked, and the outcome (given by the `outcome`
oracle) overwrites the status with `booked` or `failed`. -/
def executePendingBookingsTrace (outcome : String → BookOutcome) :
    Store → Store × List PhaseEvent
  | [] => ([], [])
  | p :: rest =>
    let tail := executePendingBookingsTrace outcome rest
    if p.2.status = Status.book_requested then
      ((p.1, applyBookOutcome (outcome p.1)
          { p.2 with status := Status.booking }) :: tail.1,
       PhaseEvent.extCall p.1 :: tail.2)
    else
      (p :: tail.1, tail.2)

/-- The store `executePendingBookings` leaves behind. -/
def executePendingBookings (outcome : String → BookOutcome) (s : Store) :
    Store :=
  (executePendingBookingsTrace outcome s).1

-- ===========================================================================
-- expireOldNotifications — the Expiry Sweeper
-- ===========================================================================

/-- JS truthiness of the nullable numeric `expiresAt` field. -/
def jsTruthyNat : Option Nat → Bool
  | none => false
  | some n => decide (n ≠ 0)

/-- The sweep applied to one entry: `status === 'notified' &&
entry.expiresAt && now > entry.expiresAt` marks it `expired`. -/
def expireOne (now : Nat) (e : Entry) : Entry :=
  if e.status = Status.notified ∧ jsTruthyNat e.expiresAt = true ∧
      e.expiresAt.getD 0 < now then
    { e with status := Status.expired }
  else e

/-- `expireOldNotifications(notifiedJobs)` at wall-clock time `now`. -/
def expireOldNotifications (now : Nat) (s : Store) : Store :=
  mapEntries (fun _ e => expireOne now e) s

-- ===========================================================================
-- The booking phase of performScrapeFilterNotify (its step 1)
-- ===========================================================================

/-- Step 1 of `performScrapeFilterNotify`: process callbacks, execute
pending bookings, sweep expiries, then `saveNotifiedJobs`.  The trace
records every Booking Actuator invocation and every persist, in program
order.  No persist happens before `saveNotifiedJobs` at the end. -/
def bookingPhase (outcome : String → BookOutcome)
    (queries : List CallbackQuery) (now : Nat) (store : Store) :
    Store × List PhaseEvent :=
  let s1 := (processCallbacks store queries).1
  let r2 := executePendingBookingsTrace outcome s1
  let s3 := expireOldNotifications now r2.1
  (s3, r2.2 ++ [PhaseEvent.persist s3])

-- ===========================================================================
-- The Notification Dispatcher (step 4 of performScrapeFilterNotify)
-- ===========================================================================

/-- The `AUTO_BOOKING_ENABLED` constant of the daemon. -/
def AUTO_BOOKING_ENABLED : Bool := true

/-- `NOTIFICATION_EXPIRY_MS = 5 * 60 * 1000` — 5 minutes. -/
def NOTIFICATION_EXPIRY_MS : Nat := 5 * 60 * 1000

/-- `AUTO_BOOK_MIN_DAYS_AHEAD = 3`. -/
def AUTO_BOOK_MIN_DAYS_AHEAD : Int := 3

/-- `shouldAutoBook(job, uncertain)`.  `daysAhead` stands for
`getJobDaysAhead(job)`, whose `Date`/timezone parsing depends on the
wall clock and locale of the host; it is passed in as a parameter (`-1`
models an unparsable date). -/
def shouldAutoBook (uncertain : Bool) (daysAhead : Int) : Bool :=
  if uncertain then false
  else decide (daysAhead ≥ AUTO_BOOK_MIN_DAYS_AHEAD)

/-- The per-job dispatch step of `performScrapeFilterNotify` (step 4) for a
matched job: if the fingerprint is already present nothing happens;
otherwise a `book_requested` (auto-book) or `notified` entry is created.
`now` is `Date.now()` at creation and `messageId` the message reference the
Notification Channel returned. -/
def dispatchJob (store : Store) (job : Job) (uncertain : Bool)
    (daysAhead : Int) (now : Nat) (messageId : Option Nat) : Store :=
  let jobHash := createJobHash job
  if (lookupStore store jobHash).isSome then store
  else if AUTO_BOOKING_ENABLED && shouldAutoBook uncertain daysAhead then
    store ++ [(jobHash,
      { status := Status.book_requested, timestamp := now, expiresAt := none,
        telegramMessageId := messageId, jobData := some job,
        uncertain := false, autoBooked := true })]
  else if AUTO_BOOKING_ENABLED then
    store ++ [(jobHash,
      { status := Status.notified, timestamp := now,
        expiresAt := some (now + NOTIFICATION_EXPIRY_MS),
        telegramMessageId := messageId, jobData := some job,
        uncertain := uncertain, autoBooked := false })]
  else
    store ++ [(jobHash,
      { status := Status.notified, timestamp := now, expiresAt := none,
        telegramMessageId := none, jobData := some job,
        uncertain := uncertain, autoBooked := false })]

-- ===========================================================================
-- Store lemmas
-- ===========================================================================

/-- Looking up a freshly appended key. -/
theorem lookupStore_append_new (s : Store) (h : String) (e : Entry)
    (hnone : lookupStore s h = none) :
    lookupStore (s ++ [(h, e)]) h = some e := by
  induction s with
  | nil => simp [lookupStore]
  | cons p rest ih =>
    by_cases hp : p.1 = h
    · simp [lookupStore, hp] at hnone
    · simp only [lookupStore, List.cons_append, hp, if_neg hp] at hnone ⊢
      exact ih hnone

/-- Appending a single pair adds its key once. -/
theorem countKey_append_single (s : Store) (h h2 : String) (e : Entry) :
    countKey (s ++ [(h, e)]) h2 =
      countKey s h2 + (if h = h2 then 1 else 0) := by
  induction s with
  | nil => simp [countKey]
  | cons p rest ih =>
    simp [countKey, ih]
    omega

/-- An absent key has multiplicity zero. -/
theorem countKey_of_lookup_none (s : Store) (h : String)
    (hnone : lookupStore s h = none) : countKey s h = 0 := by
  induction s with
  | nil => simp [countKey]
  | cons p rest ih =>
    by_cases hp : p.1 = h
    · simp [lookupStore, hp] at hnone
    · simp only [lookupStore, hp, if_neg hp] at hnone
      simp [countKey, hp, ih hnone]

/-- `shouldAutoBook` holds exactly for certain matches at least 3 days out. -/
theorem shouldAutoBook_eq_true (uncertain : Bool) (daysAhead : Int) :
    shouldAutoBook uncertain daysAhead = true ↔
      (uncertain = false ∧ 3 ≤ daysAhead) := by
  cases uncertain <;> simp [shouldAutoBook, AUTO_BOOK_MIN_DAYS_AHEAD]

-- ===========================================================================
-- C3: auto-book eligibility of newly dispatched matches
-- ===========================================================================

/-- C3.  Dispatching a new matched job (fingerprint not in the store)
creates a `book_requested` entry with `autoBooked = true` iff
`uncertain = false` and `daysAhead >= 3`; otherwise it creates a `notified`
entry expiring 5 minutes (`NOTIFICATION_EXPIRY_MS`) after its creation
time. -/
theorem dispatchJob_autobook_iff (store : Store) (job : Job)
    (uncertain : Bool) (daysAhead : Int) (now : Nat) (messageId : Option Nat)
    (hnew : lookupStore store (createJobHash job) = none) :
    ∃ e : Entry,
      lookupStore (dispatchJob store job uncertain daysAhead now messageId)
        (createJobHash job) = some e
      ∧ ((e.status = Status.book_requested ∧ e.autoBooked = true) ↔
          (uncertain = false ∧ 3 ≤ daysAhead))
      ∧ (¬ (uncertain = false ∧ 3 ≤ daysAhead) →
          e.status = Status.notified ∧
          e.expiresAt = some (now + NOTIFICATION_EXPIRY_MS) ∧
          e.timestamp = now) := by
  by_cases hab : shouldAutoBook uncertain daysAhead = true
  · have hd : dispatchJob store job uncertain daysAhead now messageId =
        store ++ [(createJobHash job,
          { status := Status.book_requested, timestamp := now,
            expiresAt := none, telegramMessageId := messageId,
            jobData := some job, uncertain := false, autoBooked := true })] := by
      simp [dispatchJob, hnew, AUTO_BOOKING_ENABLED, hab]
    refine ⟨_, by rw [hd]; exact lookupStore_append_new store _ _ hnew, ?_, ?_⟩
    · simpa using (shouldAutoBook_eq_true uncertain daysAhead).mp hab
    · intro hc
      exact absurd ((shouldAutoBook_eq_true uncertain daysAhead).mp hab) hc
  · have hd : dispatchJob store job uncertain daysAhead now messageId =
        store ++ [(createJobHash job,
          { status := Status.notified, timestamp := now,
            expiresAt := some (now + NOTIFICATION_EXPIRY_MS),
            telegramMessageId := messageId, jobData := some job,
            uncertain := uncertain, autoBooked := false })] := by
      simp [dispatchJob, hnew, AUTO_BOOKING_ENABLED, hab]
    refine ⟨_, by rw [hd]; exact lookupStore_append_new store _ _ hnew, ?_, ?_⟩
    · constructor
      · rintro ⟨hst, _⟩
        exact absurd hst (by simp)
      · intro hc
        exact absurd ((shouldAutoBook_eq_true uncertain daysAhead).mpr hc) hab
    · intro _
      exact ⟨rfl, rfl, rfl⟩

/-- C3 witness: a certain match 3 days out is auto-booked; the same match 2
days out gets a notified entry with the 5-minute expiry. -/
theorem dispatchJob_autobook_iff_witness :
    lookupStore ([] : Store) (createJobHash demoJobFullDay) = none ∧
    (∃ e : Entry,
      lookupStore (dispatchJob [] demoJobFullDay false 3 1000 (some 5))
        (createJobHash demoJobFullDay) = some e
      ∧ ((e.status = Status.book_requested ∧ e.autoBooked = true) ↔
          ((false : Bool) = false ∧ (3 : Int) ≤ 3))
      ∧ (¬ ((false : Bool) = false ∧ (3 : Int) ≤ 3) →
          e.status = Status.notified ∧
          e.expiresAt = some (1000 + NOTIFICATION_EXPIRY_MS) ∧
          e.timestamp = 1000)) ∧
    (∃ e : Entry,
      lookupStore (dispatchJob [] demoJobFullDay false 2 1000 (some 5))
        (createJobHash demoJobFullDay) = some e
      ∧ ((e.status = Status.book_requested ∧ e.autoBooked = true) ↔
          ((false : Bool) = false ∧ (3 : Int) ≤ 2))
      ∧ (¬ ((false : Bool) = false ∧ (3 : Int) ≤ 2) →
          e.status = Status.notified ∧
          e.expiresAt = some (1000 + NOTIFICATION_EXPIRY_MS) ∧
          e.timestamp = 1000)) :=
  ⟨rfl,
   dispatchJob_autobook_iff [] demoJobFullDay false 3 1000 (some 5) rfl,
   dispatchJob_autobook_iff [] demoJobFullDay false 2 1000 (some 5) rfl⟩

-- ===========================================================================
-- C7: dispatch never duplicates a fingerprint
-- ===========================================================================

/-- A matched job whose fingerprint already has an entry leaves the store
untouched. -/
theorem dispatchJob_of_present (store : Store) (job : Job) (uncertain : Bool)
    (daysAhead : Int) (now : Nat) (messageId : Option Nat)
    (hsome : (lookupStore store (createJobHash job)).isSome = true) :
    dispatchJob store job uncertain daysAhead now messageId = store := by
  simp [dispatchJob, hsome]

/-- After dispatching a job its fingerprint is present. -/
theorem dispatchJob_lookup_isSome (store : Store) (job : Job)
    (uncertain : Bool) (daysAhead : Int) (now : Nat) (messageId : Option Nat) :
    (lookupStore (dispatchJob store job uncertain daysAhead now messageId)
      (createJobHash job)).isSome = true := by
  cases hl : lookupStore store (createJobHash job) with
  | some e =>
    rw [dispatchJob_of_present store job uncertain daysAhead now messageId
      (by simp [hl]), hl]
    rfl
  | none =>
    unfold dispatchJob
    simp only [hl, Option.isSome_none, Bool.false_eq_true, if_false]
    by_cases hab : shouldAutoBook uncertain daysAhead = true <;>
      simp [AUTO_BOOKING_ENABLED, hab, lookupStore_append_new store _ _ hl]

/-- C7.  Dispatching a job whose fingerprint already has an entry changes
nothing; dispatching the same job twice equals dispatching it once; and
dispatch preserves "at most one entry per fingerprint". -/
theorem dispatchJob_dedup (store : Store) (job : Job) (uncertain : Bool)
    (daysAhead : Int) (now : Nat) (messageId : Option Nat) :
    (∀ e : Entry, lookupStore store (createJobHash job) = some e →
      dispatchJob store job uncertain daysAhead now messageId = store)
    ∧ (∀ (u2 : Bool) (d2 : Int) (n2 : Nat) (m2 : Option Nat),
        dispatchJob (dispatchJob store job uncertain daysAhead now messageId)
          job u2 d2 n2 m2 =
        dispatchJob store job uncertain daysAhead now messageId)
    ∧ (∀ h2 : String, countKey store h2 ≤ 1 →
        countKey (dispatchJob store job uncertain daysAhead now messageId) h2
          ≤ 1) := by
  refine ⟨?_, ?_, ?_⟩
  · intro e he
    exact dispatchJob_of_present store job uncertain daysAhead now messageId
      (by simp [he])
  · intro u2 d2 n2 m2
    exact dispatchJob_of_present _ job u2 d2 n2 m2
      (dispatchJob_lookup_isSome store job uncertain daysAhead now messageId)
  · intro h2 hc
    cases hl : lookupStore store (createJobHash job) with
    | some e =>
      rw [dispatchJob_of_present store job uncertain daysAhead now messageId
        (by simp [hl])]
      exact hc
    | none =>
      have h0 := countKey_of_lookup_none store _ hl
      unfold dispatchJob
      simp only [hl, Option.isSome_none, Bool.false_eq_true, if_false]
      by_cases hab : shouldAutoBook uncertain daysAhead = true <;>
        simp only [AUTO_BOOKING_ENABLED, Bool.true_and, hab, if_true,
          Bool.false_eq_true, if_false, countKey_append_single] <;>
        by_cases hk : createJobHash job = h2 <;>
        simp_all

/-- The entry a pre-seeded store holds for the demo job. -/
def demoEntryNotified : Entry :=
  { status := Status.notified, timestamp := 0, expiresAt := some 1000,
    telegramMessageId := some 1, jobData := some demoJobFullDay,
    uncertain := false, autoBooked := false }

/-- A store already holding the demo job's fingerprint. -/
def demoStoreWithJob : Store :=
  [(createJobHash demoJobFullDay, demoEntryNotified)]

/-- C7 witness: with the demo job already stored, dispatch is a no-op,
re-dispatching is idempotent, and the fingerprint keeps multiplicity at
most one. -/
theorem dispatchJob_dedup_witness :
    dispatchJob demoStoreWithJob demoJobFullDay false 3 1000 (some 5) =
      demoStoreWithJob ∧
    dispatchJob
        (dispatchJob demoStoreWithJob demoJobFullDay false 3 1000 (some 5))
        demoJobFullDay true 2 2000 none =
      dispatchJob demoStoreWithJob demoJobFullDay false 3 1000 (some 5) ∧
    countKey (dispatchJob demoStoreWithJob demoJobFullDay false 3 1000
        (some 5)) (createJobHash demoJobFullDay) ≤ 1 :=
  ⟨(dispatchJob_dedup demoStoreWithJob demoJobFullDay false 3 1000
      (some 5)).1 demoEntryNotified (by simp [demoStoreWithJob, lookupStore]),
   (dispatchJob_dedup demoStoreWithJob demoJobFullDay false 3 1000
      (some 5)).2.1 true 2 2000 none,
   (dispatchJob_dedup demoStoreWithJob demoJobFullDay false 3 1000
      (some 5)).2.2 (createJobHash demoJobFullDay)
      (by simp [demoStoreWithJob, countKey])⟩

-- ===========================================================================
-- Lookup lemmas for the in-place store operations
-- ===========================================================================

/-- Lookup after an in-place rewrite of every entry. -/
theorem lookupStore_mapEntries (f : String → Entry → Entry) (s : Store)
    (h : String) :
    lookupStore (mapEntries f s) h = (lookupStore s h).map (f h) := by
  induction s with
  | nil => rfl
  | cons p rest ih =>
    by_cases hp : p.1 = h
    · simp [mapEntries, lookupStore, hp]
    · simp [mapEntries, lookupStore, hp, ih]

/-- Lookup after replacing the value under one key. -/
theorem lookupStore_updateStore (s : Store) (k : String) (v : Entry)
    (h : String) :
    lookupStore (updateStore s k v) h =
      if h = k then (lookupStore s h).map (fun _ => v)
      else lookupStore s h := by
  rw [updateStore, lookupStore_mapEntries]
  by_cases hp : h = k
  · simp [hp]
  · cases lookupStore s h <;> simp [hp]

-- ===========================================================================
-- C6: startup recovery forces `booking` to `failed`
-- ===========================================================================

/-- C6.  An entry loaded from the persisted store in status `booking` is in
`failed` after the startup recovery pass of `main()` (which runs before the
first cycle), and after that pass no entry is in `booking` at all. -/
theorem startup_recovery_clears_booking (raw : RawStore) (h : String)
    (e : Entry) (hload : lookupStore (loadNotifiedJobs raw) h = some e) :
    (e.status = Status.booking →
      lookupStore (startupRecoveredStore raw) h =
        some { e with status := Status.failed })
    ∧ (∀ e2 : Entry, lookupStore (startupRecoveredStore raw) h = some e2 →
        e2.status ≠ Status.booking) := by
  constructor
  · intro hb
    unfold startupRecoveredStore recoverStuckBookings
    rw [lookupStore_mapEntries, hload]
    simp [hb]
  · intro e2 he2
    unfold startupRecoveredStore recoverStuckBookings at he2
    rw [lookupStore_mapEntries, hload] at he2
    simp only [Option.map_some'] at he2
    split at he2
    · cases he2
      simp
    next hne =>
      cases he2
      exact hne

/-- An entry stuck in `booking`, as a previous crash would leave it. -/
def demoEntryBooking : Entry :=
  { status := Status.booking, timestamp := 7, expiresAt := none,
    telegramMessageId := some 3, jobData := some demoJobFullDay,
    uncertain := false, autoBooked := true }

/-- A persisted document holding a legacy bare-timestamp record and an entry
stuck in `booking`. -/
def demoRaw : RawStore :=
  [("h0", StoredValue.legacy 42), ("h1", StoredValue.entry demoEntryBooking)]

/-- C6 witness: the artificially stuck `booking` entry of `demoRaw` is found
in `failed` after the startup recovery pass, and nothing is left in
`booking`. -/
theorem startup_recovery_clears_booking_witness :
    lookupStore (loadNotifiedJobs demoRaw) "h1" = some demoEntryBooking ∧
    demoEntryBooking.status = Status.booking ∧
    lookupStore (startupRecoveredStore demoRaw) "h1" =
      some { demoEntryBooking with status := Status.failed } ∧
    (∀ e2 : Entry, lookupStore (startupRecoveredStore demoRaw) "h1" =
      some e2 → e2.status ≠ Status.booking) :=
  ⟨rfl, rfl,
   (startup_recovery_clears_booking demoRaw "h1" demoEntryBooking rfl).1 rfl,
   (startup_recovery_clears_booking demoRaw "h1" demoEntryBooking rfl).2⟩

-- ===========================================================================
-- C5: the lifecycle state machine
-- ===========================================================================

/-- The transition relation of §4.3:
`notified → book_requested | ignored | expired`,
`book_requested → booking`, `booking → booked | failed`. -/
def stepAllowed : Status → Status → Bool
  | Status.notified, Status.book_requested => true
  | Status.notified, Status.ignored => true
  | Status.notified, Status.expired => true
  | Status.book_requested, Status.booking => true
  | Status.booking, Status.booked => true
  | Status.booking, Status.failed => true
  | _, _ => false

/-- Reachability along allowed transitions (zero or more steps). -/
def Reaches (a b : Status) : Prop :=
  Relation.ReflTransGen (fun x y => stepAllowed x y = true) a b

/-- The terminal statuses. -/
def isTerminal : Status → Bool
  | Status.booked => true
  | Status.failed => true
  | Status.ignored => true
  | Status.expired => true
  | _ => false

/-- The expiry sweep moves one entry along the relation and never touches a
terminal entry. -/
theorem expireOne_spec (now : Nat) (e : Entry) :
    Reaches e.status (expireOne now e).status ∧
      (isTerminal e.status = true → expireOne now e = e) := by
  unfold expireOne
  split
  next hcond =>
    constructor
    · show Reaches e.status Status.expired
      rw [hcond.1]
      exact Relation.ReflTransGen.single rfl
    · intro ht
      rw [hcond.1] at ht
      simp [isTerminal] at ht
  next =>
    exact ⟨Relation.ReflTransGen.refl, fun _ => rfl⟩

/-- What the Booking Executor does to the entry under each key. -/
theorem lookup_executePendingBookings (outcome : String → BookOutcome)
    (s : Store) (h : String) :
    lookupStore (executePendingBookings outcome s) h =
      (lookupStore s h).map (fun e =>
        if e.status = Status.book_requested then
          applyBookOutcome (outcome h) { e with status := Status.booking }
        else e) := by
  induction s with
  | nil => rfl
  | cons p rest ih =>
    unfold executePendingBookings at *
    simp only [executePendingBookingsTrace]
    split
    next hb =>
      by_cases hp : p.1 = h
      · simp [lookupStore, hp, hb]
      · simp [lookupStore, hp, ih]
    next hb =>
      by_cases hp : p.1 = h
      · simp [lookupStore, hp, hb]
      · simp [lookupStore, hp, ih]

/-- One drained callback either leaves the entry under a key alone or moves
a `notified` entry to `book_requested` or `ignored`. -/
theorem processOneCallback_lookup (s : Store) (q : CallbackQuery)
    (h : String) :
    lookupStore (processOneCallback s q).1 h = lookupStore s h ∨
    (∃ e : Entry, lookupStore s h = some e ∧ e.status = Status.notified ∧
      (lookupStore (processOneCallback s q).1 h =
        some { e with status := Status.book_requested } ∨
       lookupStore (processOneCallback s q).1 h =
        some { e with status := Status.ignored })) := by
  unfold processOneCallback
  split
  · left; rfl
  next hhash =>
    cases hl : lookupStore s (callbackHash (q.data.getD "")) with
    | none => left; simp [hl]
    | some entry =>
      simp only [hl]
      split
      · split
        · left; rfl
        next hnot =>
          have hst : entry.status = Status.notified := not_not.mp hnot
          by_cases hp : callbackHash (q.data.getD "") = h
          · right
            refine ⟨entry, by rw [← hp]; exact hl, hst, Or.inl ?_⟩
            simp only [lookupStore_updateStore, hp, if_pos rfl]
            rw [← hp, hl]
            rfl
          · left
            have hp2 : ¬ h = callbackHash (q.data.getD "") :=
              fun hh => hp hh.symm
            simp only [lookupStore_updateStore, if_neg hp2]
      · split
        · split
          · left; rfl
          next hnot =>
            have hst : entry.status = Status.notified := not_not.mp hnot
            by_cases hp : callbackHash (q.data.getD "") = h
            · right
              refine ⟨entry, by rw [← hp]; exact hl, hst, Or.inr ?_⟩
              simp only [lookupStore_updateStore, hp, if_pos rfl]
              rw [← hp, hl]
              rfl
            · left
              have hp2 : ¬ h = callbackHash (q.data.getD "") :=
                fun hh => hp hh.symm
              simp only [lookupStore_updateStore, if_neg hp2]
        · left; rfl

/-- Draining a whole batch of callbacks keeps every entry inside the
transition relation and never touches a terminal entry. -/
theorem processCallbacks_reaches (queries : List CallbackQuery) :
    ∀ (s : Store) (h : String) (e e2 : Entry),
      lookupStore s h = some e →
      lookupStore (processCallbacks s queries).1 h = some e2 →
      Reaches e.status e2.status ∧ (isTerminal e.status = true → e2 = e) := by
  induction queries with
  | nil =>
    intro s h e e2 he he2
    simp only [processCallbacks] at he2
    rw [he] at he2
    cases he2
    exact ⟨Relation.ReflTransGen.refl, fun _ => rfl⟩
  | cons q rest ih =>
    intro s h e e2 he he2
    simp only [processCallbacks] at he2
    rcases processOneCallback_lookup s q h with heq | ⟨e1, he1, hnotif, hup⟩
    · exact ih _ h e e2 (heq.trans he) he2
    · rw [he] at he1
      cases he1
      rcases hup with hu | hu
      · have hr := ih _ h _ e2 hu he2
        constructor
        · refine Relation.ReflTransGen.head ?_ hr.1
          rw [hnotif]
          rfl
        · intro ht
          rw [hnotif] at ht
          simp [isTerminal] at ht
      · have hr := ih _ h _ e2 hu he2
        constructor
        · refine Relation.ReflTransGen.head ?_ hr.1
          rw [hnotif]
          rfl
        · intro ht
          rw [hnotif] at ht
          simp [isTerminal] at ht

/-- C5.  Every status change the Callback Processor, the Booking Executor or
the Expiry Sweeper applies to an entry follows the transition relation
`notified → book_requested | ignored | expired`,
`book_requested → booking`, `booking → booked | failed` (as zero or more
allowed steps), and an entry in a terminal status (`booked`, `failed`,
`ignored`, `expired`) is returned unchanged by all three operations. -/
theorem lifecycle_transitions (store : Store) (queries : List CallbackQuery)
    (outcome : String → BookOutcome) (now : Nat) (h : String)
    (e ecb ebk eex : Entry)
    (h0 : lookupStore store h = some e)
    (hcb : lookupStore (processCallbacks store queries).1 h = some ecb)
    (hbk : lookupStore (executePendingBookings outcome store) h = some ebk)
    (hex : lookupStore (expireOldNotifications now store) h = some eex) :
    (Reaches e.status ecb.status ∧ Reaches e.status ebk.status ∧
     Reaches e.status eex.status)
    ∧ (isTerminal e.status = true → ecb = e ∧ ebk = e ∧ eex = e) := by
  have hc := processCallbacks_reaches queries store h e ecb h0 hcb
  rw [lookup_executePendingBookings, h0, Option.map_some'] at hbk
  cases hbk
  rw [expireOldNotifications, lookupStore_mapEntries, h0,
    Option.map_some'] at hex
  cases hex
  have hx := expireOne_spec now e
  by_cases hb : e.status = Status.book_requested
  · refine ⟨⟨hc.1, ?_, hx.1⟩, ?_⟩
    · rw [if_pos hb, hb]
      cases outcome h <;>
        exact Relation.ReflTransGen.head
          (show stepAllowed Status.book_requested Status.booking = true
            from rfl)
          (Relation.ReflTransGen.single rfl)
    · intro ht
      rw [hb] at ht
      simp [isTerminal] at ht
  · refine ⟨⟨hc.1, ?_, hx.1⟩, ?_⟩
    · rw [if_neg hb]
      exact Relation.ReflTransGen.refl
    · intro ht
      exact ⟨hc.2 ht, by rw [if_neg hb], hx.2 ht⟩

/-- A store with one `notified` entry, for the lifecycle witnesses. -/
def demoLifecycleStore : Store := [("h1", demoEntryNotified)]

/-- A Book button press for the entry under "h1". -/
def demoBookQuery : CallbackQuery := { id := "q1", data := some "book:h1" }

/-- C5 witness: a Book press moves the notified demo entry to
`book_requested`; the executor and the sweeper leave it alone; all three
results are reachable along the transition relation. -/
theorem lifecycle_transitions_witness :
    lookupStore demoLifecycleStore "h1" = some demoEntryNotified ∧
    lookupStore (processCallbacks demoLifecycleStore [demoBookQuery]).1 "h1" =
      some { demoEntryNotified with status := Status.book_requested } ∧
    lookupStore (executePendingBookings (fun _ => BookOutcome.booked)
        demoLifecycleStore) "h1" = some demoEntryNotified ∧
    lookupStore (expireOldNotifications 0 demoLifecycleStore) "h1" =
      some demoEntryNotified ∧
    ((Reaches demoEntryNotified.status
        ({ demoEntryNotified with
            status := Status.book_requested } : Entry).status ∧
      Reaches demoEntryNotified.status demoEntryNotified.status ∧
      Reaches demoEntryNotified.status demoEntryNotified.status) ∧
     (isTerminal demoEntryNotified.status = true →
       ({ demoEntryNotified with
           status := Status.book_requested } : Entry) = demoEntryNotified ∧
       demoEntryNotified = demoEntryNotified ∧
       demoEntryNotified = demoEntryNotified)) :=
  ⟨rfl, rfl, rfl, rfl,
   lifecycle_transitions demoLifecycleStore [demoBookQuery]
     (fun _ => BookOutcome.booked) 0 "h1" demoEntryNotified
     { demoEntryNotified with status := Status.book_requested }
     demoEntryNotified demoEntryNotified rfl rfl rfl rfl⟩

-- ===========================================================================
-- C10: events with an unknown action tag
-- ===========================================================================

/-- Members of a batch sorted by update id do not exceed the last one. -/
theorem mem_le_getLast (l : List TgUpdate) :
    l.Pairwise (fun a b => a.update_id ≤ b.update_id) →
    ∀ u ∈ l, ∀ x, l.getLast? = some x → u.update_id ≤ x.update_id := by
  induction l with
  | nil =>
    intro _ u hu
    cases hu
  | cons a rest ih =>
    intro hs u hu x hx
    rcases List.pairwise_cons.mp hs with ⟨ha, hrest⟩
    cases rest with
    | nil =>
      cases hx
      rcases List.mem_singleton.mp hu with rfl
      exact Nat.le_refl _
    | cons b rs =>
      rw [List.getLast?_cons_cons] at hx
      rcases List.mem_cons.mp hu with rfl | hu2
      · have hxm : x ∈ b :: rs := by
          rcases List.mem_getLast?_eq_getLast hx with ⟨hne, hxe⟩
          rw [hxe]
          exact List.getLast_mem hne
        exact ha x hxm
      · exact ih hrest u hu2 x hx

/-- C10.  A drained event whose fingerprint is in the store but whose action
tag is neither "book" nor "ignore" leaves the store unchanged and is never
acknowledged (the loop body emits no `answerCallback`), while the polling
cursor still advances past its update id (Telegram delivers updates in
increasing id order, the `Pairwise` hypothesis). -/
theorem unknown_action_event (store : Store) (updates : List TgUpdate)
    (offset : Nat) (u : TgUpdate) (q : CallbackQuery) (entry : Entry)
    (hmem : u ∈ updates)
    (hq : u.callback_query = some q)
    (hsorted : updates.Pairwise (fun a b => a.update_id ≤ b.update_id))
    (hhash : callbackHash (q.data.getD "") ≠ "")
    (hentry : lookupStore store (callbackHash (q.data.getD "")) = some entry)
    (hbook : callbackAction (q.data.getD "") ≠ "book")
    (hignore : callbackAction (q.data.getD "") ≠ "ignore") :
    processOneCallback store q = (store, []) ∧
    q ∈ pollQueries updates ∧
    u.update_id < pollNewOffset offset updates := by
  refine ⟨?_, ?_, ?_⟩
  · unfold processOneCallback
    rw [if_neg hhash]
    simp only [hentry]
    rw [if_neg hbook, if_neg hignore]
  · exact List.mem_filterMap.mpr ⟨u, hmem, hq⟩
  · unfold pollNewOffset
    cases hx : updates.getLast? with
    | none =>
      rcases updates with _ | ⟨a, rest⟩
      · cases hmem
      · simp [List.getLast?_eq_none_iff] at hx
    | some x =>
      have := mem_le_getLast updates hsorted u hmem x hx
      simpa using Nat.lt_succ_of_le this

/-- An event carrying an action tag the processor does not know. -/
def demoSnoozeQuery : CallbackQuery := { id := "q9", data := some "snooze:h1" }

/-- The batch delivering the unknown-action event. -/
def demoUpdates : List TgUpdate :=
  [{ update_id := 41, callback_query := some demoBookQuery },
   { update_id := 42, callback_query := some demoSnoozeQuery }]

/-- C10 witness: the "snooze:h1" event against the demo store produces no
store change and no acknowledgement, and the cursor advances past id 42. -/
theorem unknown_action_event_witness :
    (demoUpdates.get? 1 =
      some { update_id := 42, callback_query := some demoSnoozeQuery }) ∧
    lookupStore demoLifecycleStore (callbackHash
      ((demoSnoozeQuery.data).getD "")) = some demoEntryNotified ∧
    processOneCallback demoLifecycleStore demoSnoozeQuery =
      (demoLifecycleStore, []) ∧
    demoSnoozeQuery ∈ pollQueries demoUpdates ∧
    (42 : Nat) < pollNewOffset 0 demoUpdates :=
  ⟨rfl, rfl,
   (unknown_action_event demoLifecycleStore demoUpdates 0
     { update_id := 42, callback_query := some demoSnoozeQuery }
     demoSnoozeQuery demoEntryNotified
     (by simp [demoUpdates]) rfl (by simp [demoUpdates]) (by decide) rfl
     (by decide) (by decide)).1,
   (unknown_action_event demoLifecycleStore demoUpdates 0
     { update_id := 42, callback_query := some demoSnoozeQuery }
     demoSnoozeQuery demoEntryNotified
     (by simp [demoUpdates]) rfl (by simp [demoUpdates]) (by decide) rfl
     (by decide) (by decide)).2.1,
   (unknown_action_event demoLifecycleStore demoUpdates 0
     { update_id := 42, callback_query := some demoSnoozeQuery }
     demoSnoozeQuery demoEntryNotified
     (by simp [demoUpdates]) rfl (by simp [demoUpdates]) (by decide) rfl
     (by decide) (by decide)).2.2⟩

-- ===========================================================================
-- C2: ordering of the booking-status persist and the external call
-- ===========================================================================

/-- A pending booking, as the Callback Processor or the auto-book path
leaves it. -/
def demoEntryBookRequested : Entry :=
  { status := Status.book_requested, timestamp := 0, expiresAt := none,
    telegramMessageId := some 1, jobData := some demoJobFullDay,
    uncertain := false, autoBooked := false }

/-- A store with one pending booking. -/
def demoPendingStore : Store := [("h1", demoEntryBookRequested)]

/-- Recognizes the `saveNotifiedJobs` events of a phase trace. -/
def isPersist : PhaseEvent → Bool
  | PhaseEvent.persist _ => true
  | _ => false

/-- C2 evaluated at the failing input: with one `book_requested` entry, the
booking phase's first event is already the Booking Actuator call — the only
persist comes after it, and what it persists is `booked`, never `booking`.
The second conjunct shows this is not an accident of the input: the
executor's own trace contains no persist event for any store or outcome, so
the `booking` status is never durably persisted before the external call. -/
theorem bookingPhase_calls_before_persisting :
    bookingPhase (fun _ => BookOutcome.booked) [] 0 demoPendingStore =
      ([("h1", { demoEntryBookRequested with status := Status.booked })],
       [PhaseEvent.extCall "h1",
        PhaseEvent.persist
          [("h1", { demoEntryBookRequested with status := Status.booked })]])
    ∧ (∀ (outcome : String → BookOutcome) (s : Store),
        ((executePendingBookingsTrace outcome s).2).all
          (fun ev => !isPersist ev) = true) := by
  constructor
  · rfl
  · intro outcome s
    induction s with
    | nil => rfl
    | cons p rest ih =>
      simp only [executePendingBookingsTrace]
      split
      · simp only [List.all_cons, Bool.and_eq_true]
        exact ⟨rfl, ih⟩
      · exact ih

end Scraper
